import Mathlib

/-!
Shallow embedding of `starlite/request.py` (parameter resolution and
dependency injection core) and verification of its specification claims.

Python values flowing through the resolver are modelled by `PyValue`;
Python dictionaries by insertion-ordered association lists with
first-match lookup (`alGet`) and update-in-place-or-append assignment
(`alSet`), matching CPython dict semantics.  Raised exceptions are
modelled by `Except` with a `ResolveError` distinguishing the exception
classes that appear in the source.
-/

set_option autoImplicit false

namespace Starlite

/-- Model of a Python runtime value as used by the resolution core. -/
inductive PyValue where
  | str (s : String)
  | bool (b : Bool)
  | int (n : Int)
  | none
  | list (vs : List PyValue)
  | dict (entries : List (String × PyValue))
  | uploadFile (name : String)

/-- Python truthiness (`if x:`) for the modelled values. -/
def pyTruthy : PyValue → Bool
  | PyValue.str s => s ≠ ""
  | PyValue.bool b => b
  | PyValue.int n => n ≠ 0
  | PyValue.none => false
  | PyValue.list vs => !vs.isEmpty
  | PyValue.dict es => !es.isEmpty
  | PyValue.uploadFile _ => true

/-- Python `dict.get` / `key in dict` lookup: first matching key. -/
def alGet {α : Type} : List (String × α) → String → Option α
  | [], _ => Option.none
  | (k, v) :: rest, key => if k = key then some v else alGet rest key

/-- Python `dict[key] = value`: update in place, keeping the key's
original position, or append a fresh key at the end. -/
def alSet {α : Type} : List (String × α) → String → α → List (String × α)
  | [], key, value => [(key, value)]
  | (k, v) :: rest, key, value =>
    if k = key then (k, value) :: rest else (k, v) :: alSet rest key value

/-- Python `dict(items)`: fold assignment over an item list. -/
def dict_of_items {α : Type} (l : List (String × α)) : List (String × α) :=
  l.foldl (fun m p => alSet m p.1 p.2) []

/-- The keys of an association list are pairwise distinct (true of every
list that models an actual Python dict). -/
def keysNodup {α : Type} (l : List (String × α)) : Prop :=
  (l.map Prod.fst).Nodup

/-- The exception classes raised (or propagated) by the core.
`typeError` models the `TypeError` from spreading a non-iterable,
`keyError` a plain dictionary `KeyError`, `jsonDecodeError` the
`orjson.JSONDecodeError`, `ioError` a failure of the transport-level
body/form read, and `fuelExhausted` non-termination of the unguarded
provider recursion (modelled with fuel). -/
inductive ResolveError where
  | validation (msg : String)
  | improperlyConfigured (msg : String)
  | keyError (key : String)
  | jsonDecodeError
  | typeError
  | ioError
  | fuelExhausted
deriving DecidableEq

/-! ## Query-string parsing (`_query_param_reducer`, `parse_query_params`) -/

/-- The literal coercions applied to each query value:
`_true_values = {"True", "true"}`, `_false_values = {"False", "false"}`. -/
def coerce_query_value (v : String) : PyValue :=
  if v = "True" ∨ v = "true" then PyValue.bool true
  else if v = "False" ∨ v = "false" then PyValue.bool false
  else PyValue.str v

/-- `_query_param_reducer`: one fold step over a `(key, value)` pair.
`param = acc.get(key)`; `if param:` is Python truthiness, so a falsy
existing entry is overwritten; a truthy `str` is promoted to a pair
list; any other truthy value is spread with `[*param, value]`, which
raises `TypeError` for the only other value this reducer can have
stored, a boolean. -/
def _query_param_reducer (acc : List (String × PyValue)) (cur : String × String) :
    Except ResolveError (List (String × PyValue)) :=
  let value := coerce_query_value cur.2
  match alGet acc cur.1 with
  | Option.none => Except.ok (alSet acc cur.1 value)
  | some param =>
    if pyTruthy param then
      match param with
      | PyValue.str s => Except.ok (alSet acc cur.1 (PyValue.list [PyValue.str s, value]))
      | PyValue.list vs => Except.ok (alSet acc cur.1 (PyValue.list (vs ++ [value])))
      | _ => Except.error ResolveError.typeError
    else
      Except.ok (alSet acc cur.1 value)

/-- The left fold of `_query_param_reducer` over the pair list
(`reduce(_query_param_reducer, pairs, {})`). -/
def query_param_fold : List (String × String) → List (String × PyValue) →
    Except ResolveError (List (String × PyValue))
  | [], acc => Except.ok acc
  | cur :: rest, acc =>
    match _query_param_reducer acc cur with
    | Except.ok acc' => query_param_fold rest acc'
    | Except.error e => Except.error e

/-- Split a character list at every occurrence of the separator. -/
def splitChar (c : Char) : List Char → List (List Char)
  | [] => [[]]
  | x :: xs =>
    match splitChar c xs with
    | [] => [[]]
    | g :: gs => if x = c then [] :: g :: gs else (x :: g) :: gs

/-- Split a chunk at the first `=` (Python `chunk.split("=", 1)`); a
chunk without `=` keeps a blank value (`keep_blank_values=True`). -/
def splitKV : List Char → List Char × List Char
  | [] => ([], [])
  | x :: xs =>
    if x = '=' then ([], xs)
    else
      let kv := splitKV xs
      (x :: kv.1, kv.2)

/-- Modelled from the spec: the Python standard library function
`urllib.parse.parse_qsl(qs, keep_blank_values=True)` (external to this
repository).  Splits on `&`, drops empty chunks, splits each chunk at
the first `=` (a chunk with no `=` keeps a blank value), and replaces
`+` by a space.  Percent-decoding is not modelled. -/
def parse_qsl (s : String) : List (String × String) :=
  ((splitChar '&' s.toList).filter (fun chunk => !chunk.isEmpty)).map
    (fun chunk =>
      let plusToSpace := fun (t : List Char) =>
        String.mk (t.map (fun c => if c = '+' then ' ' else c))
      let kv := splitKV chunk
      (plusToSpace kv.1, plusToSpace kv.2))

/-! ## The data model: fields, connections, providers -/

/-- `starlite.enums.RequestEncodingType` (declared outside `src/`).
Modelled from the spec: JSON vs. multipart vs. url-encoded declared
encodings.  The enum values are non-empty strings, hence truthy. -/
inductive RequestEncodingType where
  | json
  | multiPart
  | urlEncoded
deriving DecidableEq

/-- Pydantic field shape: `SHAPE_SINGLETON`, `SHAPE_LIST`, or any other
shape constant. -/
inductive FieldShape where
  | singleton
  | list
  | other
deriving DecidableEq

/-- The field's `type_`: the uploaded-file type (`UploadFile`) or any
other type, identified by name. -/
inductive FieldType where
  | uploadFile
  | named (s : String)
deriving DecidableEq

/-- The `field_info.extra` dict of a pydantic `ModelField`, restricted
to the keys the core reads.  `Option.none` models an absent key (so
`extra["required"]` on a `FieldExtra` with `required = Option.none`
raises `KeyError`); `some ""` models a present but falsy alias. -/
structure FieldExtra where
  query : Option String := Option.none
  header : Option String := Option.none
  cookie : Option String := Option.none
  required : Option Bool := Option.none
  media_type : Option RequestEncodingType := Option.none

/-- `if extra_keys:`  (`extra_keys = set(extra.keys())`). -/
def FieldExtra.hasKeys (e : FieldExtra) : Bool :=
  e.query.isSome || e.header.isSome || e.cookie.isSome ||
    e.required.isSome || e.media_type.isSome

/-- A pydantic `ModelField` as read by the core: `type_`, `shape`,
`default` (with `Option.none` modelling the `Undefined` sentinel) and
the `field_info.extra` dict. -/
structure ModelField where
  type_ : FieldType := FieldType.named "Any"
  shape : FieldShape := FieldShape.singleton
  default : Option PyValue := Option.none
  extra : FieldExtra := {}

/-- One entry of a starlette `FormData` multi-dict: an uploaded file or
a plain string value. -/
inductive FormValue where
  | file (name : String)
  | str (s : String)

/-- `FormData.multi_items()`: the ordered multi-entry list. -/
def FormData : Type := List (String × FormValue)

/-- The connection state shared by the HTTP and websocket variants:
path parameters, the raw query string from `scope["query_string"]`
(`Option.none` models an absent scope key), headers, cookies and the
application state reachable as `connection.app.state`. -/
structure ConnData where
  path_params : List (String × String) := []
  query_string : Option String := Option.none
  headers : List (String × String) := []
  cookies : List (String × String) := []
  app_state : List (String × PyValue) := []

/-- The HTTP variant (`Request`): adds a method and the body/form
reading capabilities.  `Except.error ()` for `body`/`form` models a
transport read that would raise, so a result that is independent of
these fields was produced without performing any I/O. -/
structure HttpRequest where
  base : ConnData := {}
  method : String := "GET"
  body : Except Unit String := Except.error ()
  form : Except Unit FormData := Except.error ()

/-- `starlette.requests.HTTPConnection` with its two variants:
`Request` (HTTP) and `WebSocket` (persistent session). -/
inductive Connection where
  | request (r : HttpRequest)
  | websocket (d : ConnData)

/-- The shared connection data of either variant. -/
def Connection.base : Connection → ConnData
  | Connection.request r => r.base
  | Connection.websocket d => d

/-- `parse_query_params`: reads `scope["query_string"]` (`KeyError`,
i.e. an absent key, yields `{}`), decodes, splits with `parse_qsl`
keeping blank values, and folds `_query_param_reducer` over the pairs
starting from `{}`.  Only the `KeyError` is caught by the source's
`try`; the reducer's `TypeError` propagates. -/
def parse_query_params (connection : Connection) :
    Except ResolveError (List (String × PyValue)) :=
  match connection.base.query_string with
  | Option.none => Except.ok []
  | some qs => query_param_fold (parse_qsl qs) []

/-! ## Body decoding (`handle_multipart`, `get_request_data`) -/

/-- One step of the `form_data.multi_items()` loop of
`handle_multipart`: JSON-decode non-file values with
`suppress(JSONDecodeError)` falling back to the raw string, then
accumulate with the same truthiness-guarded list promotion as the
query reducer (here the non-list truthy case builds a two-element
list, no spread, so no `TypeError` is possible). -/
def multipart_reducer (loads : String → Option PyValue)
    (acc : List (String × PyValue)) (cur : String × FormValue) :
    List (String × PyValue) :=
  let value : PyValue :=
    match cur.2 with
    | FormValue.file nm => PyValue.uploadFile nm
    | FormValue.str s =>
      match loads s with
      | some j => j
      | Option.none => PyValue.str s
  match alGet acc cur.1 with
  | some old =>
    if pyTruthy old then
      match old with
      | PyValue.list vs => alSet acc cur.1 (PyValue.list (vs ++ [value]))
      | _ => alSet acc cur.1 (PyValue.list [old, value])
    else alSet acc cur.1 value
  | Option.none => alSet acc cur.1 value

/-- The accumulated `values_dict` of `handle_multipart`. -/
def form_values (loads : String → Option PyValue) (form_data : FormData) :
    List (String × PyValue) :=
  form_data.foldl (multipart_reducer loads) []

/-- `handle_multipart`: accumulate the form entries, then apply the
shape-directed post-processing, which is gated on the media type being
multipart. -/
def handle_multipart (loads : String → Option PyValue)
    (media_type : RequestEncodingType) (form_data : FormData)
    (field : ModelField) : PyValue :=
  let values_dict := form_values loads form_data
  if media_type = RequestEncodingType.multiPart then
    if field.shape = FieldShape.list then
      PyValue.list (values_dict.map Prod.snd)
    else if field.shape = FieldShape.singleton ∧ field.type_ = FieldType.uploadFile then
      match values_dict with
      | (_, v) :: _ => v
      | [] => PyValue.dict values_dict
    else PyValue.dict values_dict
  else PyValue.dict values_dict

/-- Modelled from the spec: Python's `str.lower()` (an external
builtin), restricted to the ASCII letters that occur in HTTP method
names. -/
def str_lower (s : String) : String :=
  String.mk (s.toList.map
    (fun c => if 65 ≤ c.toNat ∧ c.toNat ≤ 90 then Char.ofNat (c.toNat + 32) else c))

/-- `get_request_data`: reject GET requests as a configuration error
before any read; otherwise decode the body as JSON (for an unset or
JSON media type, with a decode failure propagating) or read the form
and delegate to `handle_multipart`.  The external `orjson.loads` is
abstracted as the `loads` argument (`Option.none` models
`JSONDecodeError`). -/
def get_request_data (loads : String → Option PyValue)
    (request : HttpRequest) (field : ModelField) :
    Except ResolveError PyValue :=
  if str_lower request.method = "get" then
    Except.error (ResolveError.improperlyConfigured
      ("the data kwarg is unsupported for GET requests"))
  else
    match field.extra.media_type with
    | Option.none =>
      match request.body with
      | Except.error _ => Except.error ResolveError.ioError
      | Except.ok body =>
        match loads body with
        | some j => Except.ok j
        | Option.none => Except.error ResolveError.jsonDecodeError
    | some media_type =>
      if media_type = RequestEncodingType.json then
        match request.body with
        | Except.error _ => Except.error ResolveError.ioError
        | Except.ok body =>
          match loads body with
          | some j => Except.ok j
          | Option.none => Except.error ResolveError.jsonDecodeError
      else
        match request.form with
        | Except.error _ => Except.error ResolveError.ioError
        | Except.ok form_data =>
          Except.ok (handle_multipart loads media_type form_data field)

/-! ## Connection parameter extraction (`get_connection_parameters`) -/

/-- The `elif "cookie" in extra_keys and extra["cookie"]:` arm of the
selection chain: yields the alias (`parameter_name`), the truthiness
of the selected source dict, and the `source[parameter_name]` lookup
result (cookie values are strings). -/
def cookie_selection (extra : FieldExtra) (cookies : List (String × String)) :
    Option (String × Bool × Option PyValue) :=
  match extra.cookie with
  | some a =>
    if a = "" then Option.none
    else some (a, !cookies.isEmpty, (alGet cookies a).map PyValue.str)
  | Option.none => Option.none

/-- The `elif "header" in extra_keys and extra["header"]:` arm, falling
through to the cookie arm. -/
def header_selection (extra : FieldExtra) (header_params : List (String × String))
    (cookies : List (String × String)) : Option (String × Bool × Option PyValue) :=
  match extra.header with
  | some a =>
    if a = "" then cookie_selection extra cookies
    else some (a, !header_params.isEmpty, (alGet header_params a).map PyValue.str)
  | Option.none => cookie_selection extra cookies

/-- The `if "query" in extra_keys and extra["query"]:` arm, falling
through to the header arm: the full `parameter_name`/`source` selection
of `get_connection_parameters`. -/
def extra_selection (extra : FieldExtra) (query_params : List (String × PyValue))
    (header_params : List (String × String)) (cookies : List (String × String)) :
    Option (String × Bool × Option PyValue) :=
  match extra.query with
  | some a =>
    if a = "" then header_selection extra header_params cookies
    else some (a, !query_params.isEmpty, alGet query_params a)
  | Option.none => header_selection extra header_params cookies

/-- `get_connection_parameters`: path parameters first (exact field
name), then query parameters (exact field name), then — when the extra
dict is non-empty — the selected extras source.  The selected branch
runs only under `if parameter_name and source:` (alias truthy and
source dict non-empty); it reads `extra["required"]` (a `KeyError`
when the key is absent) and then looks the alias up in the source,
raising the validation error on a miss exactly when
`parameter_is_required and not default`.  Every other path returns the
default (`field.default`, or `None` for the `Undefined` sentinel). -/
def get_connection_parameters (connection : Connection) (field_name : String)
    (field : ModelField) (query_params : List (String × PyValue))
    (header_params : List (String × String)) : Except ResolveError PyValue :=
  match alGet connection.base.path_params field_name with
  | some v => Except.ok (PyValue.str v)
  | Option.none =>
  match alGet query_params field_name with
  | some v => Except.ok v
  | Option.none =>
    let extra := field.extra
    let default := field.default.getD PyValue.none
    if extra.hasKeys then
      match extra_selection extra query_params header_params connection.base.cookies with
      | some (parameter_name, source_truthy, found) =>
        if source_truthy then
          match extra.required with
          | Option.none => Except.error (ResolveError.keyError ("required"))
          | some parameter_is_required =>
            match found with
            | some v => Except.ok v
            | Option.none =>
              if parameter_is_required && !pyTruthy default then
                Except.error (ResolveError.validation
                  ("Missing required parameter " ++ parameter_name))
              else Except.ok default
        else Except.ok default
      | Option.none => Except.ok default
    else Except.ok default

/-! ## The kwargs builder (`get_model_kwargs_from_connection`) -/

/-- A value bound in the resolved kwargs mapping: either a plain value
or the connection object itself (bound for `request`/`socket`). -/
inductive KwargValue where
  | py (v : PyValue)
  | conn (c : Connection)

/-- The dispatch body of the `for field_name, field in fields.items():`
loop of `get_model_kwargs_from_connection`: reserved names first, in
source order, then delegation to `get_connection_parameters`. -/
def kwarg_step (loads : String → Option PyValue) (connection : Connection)
    (query_params : List (String × PyValue)) (header_params : List (String × String))
    (kwargs : List (String × KwargValue)) (field_name : String) (field : ModelField) :
    Except ResolveError (List (String × KwargValue)) :=
  if field_name = "state" then
    Except.ok (alSet kwargs ("state") (KwargValue.py (PyValue.dict connection.base.app_state)))
  else if field_name = "headers" then
    Except.ok (alSet kwargs ("headers")
      (KwargValue.py (PyValue.dict (header_params.map (fun p => (p.1, PyValue.str p.2))))))
  else if field_name = "cookies" then
    Except.ok (alSet kwargs ("cookies")
      (KwargValue.py (PyValue.dict (connection.base.cookies.map (fun p => (p.1, PyValue.str p.2))))))
  else if field_name = "query" then
    Except.ok (alSet kwargs ("query") (KwargValue.py (PyValue.dict query_params)))
  else if field_name = "request" then
    match connection with
    | Connection.request _ => Except.ok (alSet kwargs ("request") (KwargValue.conn connection))
    | Connection.websocket _ => Except.error (ResolveError.improperlyConfigured
        ("the request kwarg is not supported with websocket handlers"))
  else if field_name = "socket" then
    match connection with
    | Connection.websocket _ => Except.ok (alSet kwargs ("socket") (KwargValue.conn connection))
    | Connection.request _ => Except.error (ResolveError.improperlyConfigured
        ("the socket kwarg is not supported with http handlers"))
  else if field_name = "data" then
    match connection with
    | Connection.request r =>
      match get_request_data loads r field with
      | Except.ok d => Except.ok (alSet kwargs ("data") (KwargValue.py d))
      | Except.error e => Except.error e
    | Connection.websocket _ => Except.error (ResolveError.improperlyConfigured
        ("the data kwarg is not supported with websocket handlers"))
  else
    match get_connection_parameters connection field_name field query_params header_params with
    | Except.ok v => Except.ok (alSet kwargs field_name (KwargValue.py v))
    | Except.error e => Except.error e

/-- The `for` loop of `get_model_kwargs_from_connection` over the field
set, threading the kwargs dict. -/
def build_kwargs_loop (loads : String → Option PyValue) (connection : Connection)
    (query_params : List (String × PyValue)) (header_params : List (String × String)) :
    List (String × ModelField) → List (String × KwargValue) →
    Except ResolveError (List (String × KwargValue))
  | [], kwargs => Except.ok kwargs
  | (field_name, field) :: rest, kwargs =>
    match kwarg_step loads connection query_params header_params kwargs field_name field with
    | Except.ok kwargs' => build_kwargs_loop loads connection query_params header_params rest kwargs'
    | Except.error e => Except.error e

/-- `get_model_kwargs_from_connection`: parse the query parameters and
build the header dict once, then run the dispatch loop over the field
set starting from an empty kwargs dict. -/
def get_model_kwargs_from_connection (loads : String → Option PyValue)
    (connection : Connection) (fields : List (String × ModelField)) :
    Except ResolveError (List (String × KwargValue)) :=
  match parse_query_params connection with
  | Except.error e => Except.error e
  | Except.ok query_params =>
    build_kwargs_loop loads connection query_params
      (dict_of_items connection.base.headers) fields []

/-! ## Dependency resolution (`resolve_signature_kwargs`) -/

/-- A `Provide` entry of the provider table: its own signature-model
field set (`get_signature_model(provider).__fields__`) and the provider
callable.  Modelled from the spec: the opaque validated signature-model
constructor `Model(**kwargs).dict()` (an external collaborator) is
treated as the identity on the kwargs mapping, so invoking the provider
is one abstract function `fn` of the resolved kwargs. -/
structure Provide where
  fields : List (String × ModelField) := []
  fn : List (String × KwargValue) → PyValue := fun _ => PyValue.none

/-- `{**connection_kwargs, **dependencies}`: start from the connection
kwargs and assign every dependency entry over it. -/
def merge_kwargs (connection_kwargs : List (String × KwargValue))
    (dependencies : List (String × KwargValue)) : List (String × KwargValue) :=
  dependencies.foldl (fun m p => alSet m p.1 p.2) connection_kwargs

/-- The provider loop of `resolve_signature_kwargs`: for each provider
table entry whose key is in the field set, recursively resolve the
provider's own field set (through `resolveSub`, instantiated with
`resolve_signature_kwargs` at the remaining fuel) and store the
provider invocation result under the key. -/
def resolve_deps_loop
    (resolveSub : Provide → Except ResolveError (List (String × KwargValue)))
    (fields : List (String × ModelField)) :
    List (String × Provide) → List (String × KwargValue) →
    Except ResolveError (List (String × KwargValue))
  | [], dependencies => Except.ok dependencies
  | (key, provider) :: rest, dependencies =>
    if (alGet fields key).isSome then
      match resolveSub provider with
      | Except.error e => Except.error e
      | Except.ok provider_kwargs =>
        resolve_deps_loop resolveSub fields rest
          (alSet dependencies key (KwargValue.py (provider.fn provider_kwargs)))
    else resolve_deps_loop resolveSub fields rest dependencies

/-- `resolve_signature_kwargs`: the `for key, provider in
providers.items():` loop resolves every provider whose name occurs in
the field set (recursively, against the same connection and the same
full provider table) and stores its invocation result; the remaining
fields go through `get_model_kwargs_from_connection`; the two dicts
are merged with the dependency entries assigned last.  The source has
no cycle guard, so the recursion carries explicit fuel; running out of
fuel models the stack-exhaustion failure of a cyclic provider graph. -/
def resolve_signature_kwargs (loads : String → Option PyValue) :
    Nat → List (String × ModelField) → Connection → List (String × Provide) →
    Except ResolveError (List (String × KwargValue))
  | 0, _, _, _ => Except.error ResolveError.fuelExhausted
  | Nat.succ fuel, fields, connection, providers =>
    match resolve_deps_loop
        (fun p => resolve_signature_kwargs loads fuel p.fields connection providers)
        fields providers [] with
    | Except.error e => Except.error e
    | Except.ok dependencies =>
      match get_model_kwargs_from_connection loads connection
          (fields.filter (fun kv => (alGet dependencies kv.1).isNone)) with
      | Except.error e => Except.error e
      | Except.ok connection_kwargs => Except.ok (merge_kwargs connection_kwargs dependencies)

/-! ## Association-list lemmas -/

@[simp] theorem alGet_nil {α : Type} (k : String) : alGet ([] : List (String × α)) k = Option.none := rfl

@[simp] theorem alGet_cons {α : Type} (k0 : String) (v0 : α) (rest : List (String × α)) (k : String) :
    alGet ((k0, v0) :: rest) k = if k0 = k then some v0 else alGet rest k := rfl

theorem alGet_alSet_self {α : Type} (l : List (String × α)) (k : String) (v : α) :
    alGet (alSet l k v) k = some v := by
  induction l with
  | nil => simp [alSet]
  | cons p rest ih =>
    obtain ⟨k0, v0⟩ := p
    by_cases h : k0 = k
    · subst h; simp [alSet]
    · simp [alSet, h, ih]

theorem alGet_alSet_ne {α : Type} (l : List (String × α)) (k k' : String) (v : α)
    (h : k' ≠ k) : alGet (alSet l k' v) k = alGet l k := by
  induction l with
  | nil => simp [alSet, h]
  | cons p rest ih =>
    obtain ⟨k0, v0⟩ := p
    by_cases h0 : k0 = k'
    · subst h0; simp [alSet, h]
    · simp [alSet, h0, ih]

theorem alGet_alSet_isSome {α : Type} (l : List (String × α)) (k k' : String) (v : α) :
    (alGet (alSet l k' v) k).isSome = true ↔ k = k' ∨ (alGet l k).isSome = true := by
  by_cases h : k = k'
  · subst h; simp [alGet_alSet_self]
  · rw [alGet_alSet_ne l k k' v (fun he => h he.symm)]
    simp [h]

theorem alGet_eq_none_of_isEmpty {α : Type} (l : List (String × α)) (k : String)
    (h : l.isEmpty = true) : alGet l k = Option.none := by
  cases l with
  | nil => rfl
  | cons p rest => simp [List.isEmpty] at h

theorem isEmpty_false_of_alGet {α : Type} (l : List (String × α)) (k : String) (v : α)
    (h : alGet l k = some v) : l.isEmpty = false := by
  cases l with
  | nil => simp at h
  | cons p rest => rfl

theorem mem_keys_alSet {α : Type} (l : List (String × α)) (k k' : String) (v : α) :
    k ∈ (alSet l k' v).map Prod.fst ↔ k ∈ l.map Prod.fst ∨ k = k' := by
  induction l with
  | nil => simp [alSet]
  | cons p rest ih =>
    obtain ⟨k0, v0⟩ := p
    by_cases h : k0 = k'
    · subst h; simp [alSet]; tauto
    · simp [alSet, h, ih]; tauto

theorem keysNodup_alSet {α : Type} (l : List (String × α)) (k : String) (v : α)
    (h : keysNodup l) : keysNodup (alSet l k v) := by
  induction l with
  | nil => simp [alSet, keysNodup]
  | cons p rest ih =>
    obtain ⟨k0, v0⟩ := p
    unfold keysNodup at h
    simp only [List.map_cons, List.nodup_cons] at h
    by_cases h0 : k0 = k
    · subst h0
      have heq : alSet ((k0, v0) :: rest) k0 v = (k0, v) :: rest := by simp [alSet]
      rw [heq]
      unfold keysNodup
      simp only [List.map_cons, List.nodup_cons]
      exact h
    · unfold keysNodup
      simp only [alSet, if_neg h0, List.map_cons, List.nodup_cons]
      refine ⟨fun hmem => ?_, ih h.2⟩
      rcases (mem_keys_alSet rest k0 k v).mp hmem with hm | he
      · exact h.1 hm
      · exact h0 he

theorem alGet_filter {α : Type} (p : String → Bool) (l : List (String × α)) (k : String) :
    alGet (l.filter (fun kv => p kv.1)) k = if p k then alGet l k else Option.none := by
  induction l with
  | nil => simp
  | cons q rest ih =>
    obtain ⟨k0, v0⟩ := q
    by_cases hk : k0 = k
    · subst hk
      by_cases hp : p k0 <;> simp [List.filter_cons, hp, ih]
    · by_cases hp : p k0 <;> simp [List.filter_cons, hp, hk, ih]

theorem merge_kwargs_isSome (ck deps : List (String × KwargValue)) (k : String) :
    (alGet (merge_kwargs ck deps) k).isSome = true ↔
      (alGet ck k).isSome = true ∨ (alGet deps k).isSome = true := by
  induction deps generalizing ck with
  | nil => simp [merge_kwargs]
  | cons p rest ih =>
    obtain ⟨k0, v0⟩ := p
    have : merge_kwargs ck ((k0, v0) :: rest) = merge_kwargs (alSet ck k0 v0) rest := rfl
    rw [this, ih]
    rw [alGet_alSet_isSome]
    by_cases hk : k0 = k
    · subst hk; simp
    · have hk' : k ≠ k0 := fun he => hk he.symm
      simp [hk, hk']

theorem merge_kwargs_get_of_none (m rest : List (String × KwargValue)) (k : String)
    (h : alGet rest k = Option.none) : alGet (merge_kwargs m rest) k = alGet m k := by
  induction rest generalizing m with
  | nil => rfl
  | cons p tail ih =>
    obtain ⟨k1, w⟩ := p
    simp only [alGet_cons] at h
    by_cases h1 : k1 = k
    · simp [h1] at h
    · have : merge_kwargs m ((k1, w) :: tail) = merge_kwargs (alSet m k1 w) tail := rfl
      rw [this, ih (alSet m k1 w) (by simpa [h1] using h), alGet_alSet_ne _ _ _ _ h1]

theorem alGet_eq_none_of_not_mem {α : Type} (l : List (String × α)) (k : String)
    (h : k ∉ l.map Prod.fst) : alGet l k = Option.none := by
  induction l with
  | nil => rfl
  | cons p rest ih =>
    obtain ⟨k0, v0⟩ := p
    simp only [List.map_cons, List.mem_cons] at h
    push_neg at h
    have h0 : k0 ≠ k := fun he => h.1 he.symm
    simp [h0, ih h.2]

theorem merge_kwargs_get_right (ck deps : List (String × KwargValue)) (k : String)
    (v : KwargValue) (hnd : keysNodup deps) (h : alGet deps k = some v) :
    alGet (merge_kwargs ck deps) k = some v := by
  induction deps generalizing ck with
  | nil => simp at h
  | cons p rest ih =>
    obtain ⟨k0, v0⟩ := p
    unfold keysNodup at hnd
    simp only [List.map_cons, List.nodup_cons] at hnd
    have hstep : merge_kwargs ck ((k0, v0) :: rest) = merge_kwargs (alSet ck k0 v0) rest := rfl
    by_cases h0 : k0 = k
    · subst h0
      simp only [alGet_cons, if_pos rfl] at h
      have hrest : alGet rest k0 = Option.none :=
        alGet_eq_none_of_not_mem rest k0 hnd.1
      rw [hstep, merge_kwargs_get_of_none _ _ _ hrest, alGet_alSet_self]
      exact h
    · simp only [alGet_cons, if_neg h0] at h
      rw [hstep]
      exact ih (alSet ck k0 v0) hnd.2 h

theorem kwarg_step_shape (loads : String → Option PyValue) (connection : Connection)
    (query_params : List (String × PyValue)) (header_params : List (String × String))
    (kwargs : List (String × KwargValue)) (field_name : String) (field : ModelField)
    (r : List (String × KwargValue))
    (h : kwarg_step loads connection query_params header_params kwargs field_name field = Except.ok r) :
    ∃ v, r = alSet kwargs field_name v := by
  unfold kwarg_step at h
  repeat' split at h
  all_goals try simp_all
  all_goals exact ⟨_, h.symm⟩

theorem build_kwargs_loop_keys (loads : String → Option PyValue) (connection : Connection)
    (query_params : List (String × PyValue)) (header_params : List (String × String)) :
    ∀ (fields : List (String × ModelField)) (kwargs m : List (String × KwargValue)),
    build_kwargs_loop loads connection query_params header_params fields kwargs = Except.ok m →
    ∀ k, (alGet m k).isSome = true ↔
      (alGet fields k).isSome = true ∨ (alGet kwargs k).isSome = true := by
  intro fields
  induction fields with
  | nil =>
    intro kwargs m h k
    unfold build_kwargs_loop at h
    injection h with h2
    subst h2
    simp
  | cons fv rest ih =>
    intro kwargs m h k
    obtain ⟨fn, f⟩ := fv
    unfold build_kwargs_loop at h
    cases hs : kwarg_step loads connection query_params header_params kwargs fn f with
    | error e => rw [hs] at h; cases h
    | ok kwargs' =>
      rw [hs] at h
      obtain ⟨v, rfl⟩ := kwarg_step_shape loads connection query_params header_params
        kwargs fn f kwargs' hs
      rw [ih (alSet kwargs fn v) m h k, alGet_alSet_isSome]
      by_cases hk : fn = k
      · subst hk; simp
      · have hk' : k ≠ fn := fun he => hk he.symm
        simp [hk, hk']

theorem get_model_kwargs_keys (loads : String → Option PyValue) (connection : Connection)
    (fields : List (String × ModelField)) (m : List (String × KwargValue))
    (h : get_model_kwargs_from_connection loads connection fields = Except.ok m) :
    ∀ k, (alGet m k).isSome = true ↔ (alGet fields k).isSome = true := by
  unfold get_model_kwargs_from_connection at h
  cases hq : parse_query_params connection with
  | error e => rw [hq] at h; cases h
  | ok query_params =>
    rw [hq] at h
    intro k
    rw [build_kwargs_loop_keys loads connection query_params
      (dict_of_items connection.base.headers) fields [] m h k]
    simp

theorem resolve_deps_loop_sub
    (resolveSub : Provide → Except ResolveError (List (String × KwargValue)))
    (fields : List (String × ModelField)) :
    ∀ (provs : List (String × Provide)) (deps m : List (String × KwargValue)),
    resolve_deps_loop resolveSub fields provs deps = Except.ok m →
    ∀ k, (alGet m k).isSome = true →
      (alGet fields k).isSome = true ∨ (alGet deps k).isSome = true := by
  intro provs
  induction provs with
  | nil =>
    intro deps m h k hm
    unfold resolve_deps_loop at h
    injection h with h2
    subst h2
    exact Or.inr hm
  | cons kp rest ih =>
    intro deps m h k hm
    obtain ⟨key, provider⟩ := kp
    unfold resolve_deps_loop at h
    by_cases hin : (alGet fields key).isSome = true
    · rw [if_pos hin] at h
      cases hr : resolveSub provider with
      | error e => rw [hr] at h; cases h
      | ok pk =>
        rw [hr] at h
        rcases ih (alSet deps key (KwargValue.py (provider.fn pk))) m h k hm with hf | hd
        · exact Or.inl hf
        · rcases (alGet_alSet_isSome deps k key (KwargValue.py (provider.fn pk))).mp hd with he | hd2
          · subst he; exact Or.inl hin
          · exact Or.inr hd2
    · rw [if_neg hin] at h
      exact ih deps m h k hm

theorem resolve_deps_loop_nodup
    (resolveSub : Provide → Except ResolveError (List (String × KwargValue)))
    (fields : List (String × ModelField)) :
    ∀ (provs : List (String × Provide)) (deps m : List (String × KwargValue)),
    resolve_deps_loop resolveSub fields provs deps = Except.ok m →
    keysNodup deps → keysNodup m := by
  intro provs
  induction provs with
  | nil =>
    intro deps m h hd
    unfold resolve_deps_loop at h
    injection h with h2
    subst h2
    exact hd
  | cons kp rest ih =>
    intro deps m h hd
    obtain ⟨key, provider⟩ := kp
    unfold resolve_deps_loop at h
    by_cases hin : (alGet fields key).isSome = true
    · rw [if_pos hin] at h
      cases hr : resolveSub provider with
      | error e => rw [hr] at h; cases h
      | ok pk =>
        rw [hr] at h
        exact ih _ m h (keysNodup_alSet deps key _ hd)
    · rw [if_neg hin] at h
      exact ih deps m h hd

/-- C5: for every HTTP request whose method is GET (after lowering) and
declares a `data` field, body decoding returns the configuration error
uniformly in the body and form reading capabilities — including ones
whose read would fail — so the error is raised before any I/O is
attempted; and the error is distinct from every client validation
error. -/
theorem claim_C5 (loads : String → Option PyValue) (base : ConnData) (method : String)
    (body : Except Unit String) (form : Except Unit FormData) (field : ModelField)
    (hget : str_lower method = "get") :
    get_request_data loads { base := base, method := method, body := body, form := form } field =
      Except.error (ResolveError.improperlyConfigured
        ("the data kwarg is unsupported for GET requests")) ∧
    ∀ msg, ResolveError.improperlyConfigured ("the data kwarg is unsupported for GET requests") ≠
      ResolveError.validation msg := by
  constructor
  · unfold get_request_data
    simp [hget]
  · intro msg h
    exact ResolveError.noConfusion h

/-- Witness for C5: a concrete GET request whose body and form reads
would both fail, showing the configuration error is produced with no
I/O. -/
theorem claim_C5_witness :
    get_request_data (fun _ => Option.none)
        { base := {}, method := "GET", body := Except.error (), form := Except.error () } {} =
      Except.error (ResolveError.improperlyConfigured
        ("the data kwarg is unsupported for GET requests")) ∧
    ∀ msg, ResolveError.improperlyConfigured ("the data kwarg is unsupported for GET requests") ≠
      ResolveError.validation msg :=
  claim_C5 (fun _ => Option.none) {} ("GET") (Except.error ()) (Except.error ()) {} rfl

/-- C7: a failed JSON decode of a non-file form-field value is
swallowed, storing the raw string (first conjunct), and form decoding
as a whole succeeds whenever the form read does (second conjunct);
whereas for a JSON media type a failed top-level decode of the body
propagates as the fatal decode error (third conjunct). -/
theorem claim_C7 :
    (∀ (loads : String → Option PyValue) (acc : List (String × PyValue)) (k s : String),
      loads s = Option.none → alGet acc k = Option.none →
      multipart_reducer loads acc (k, FormValue.str s) = alSet acc k (PyValue.str s)) ∧
    (∀ (loads : String → Option PyValue) (request : HttpRequest) (field : ModelField)
      (media_type : RequestEncodingType) (form_data : FormData),
      str_lower request.method ≠ "get" →
      field.extra.media_type = some media_type → media_type ≠ RequestEncodingType.json →
      request.form = Except.ok form_data →
      get_request_data loads request field =
        Except.ok (handle_multipart loads media_type form_data field)) ∧
    (∀ (loads : String → Option PyValue) (request : HttpRequest) (field : ModelField)
      (body : String),
      str_lower request.method ≠ "get" →
      (field.extra.media_type = Option.none ∨
        field.extra.media_type = some RequestEncodingType.json) →
      request.body = Except.ok body → loads body = Option.none →
      get_request_data loads request field = Except.error ResolveError.jsonDecodeError) := by
  refine ⟨?_, ?_, ?_⟩
  · intro loads acc k s hfail hacc
    unfold multipart_reducer
    simp [hfail, hacc]
  · intro loads request field media_type form_data hget hmt hjson hform
    unfold get_request_data
    simp [hget, hmt, hjson, hform]
  · intro loads request field body hget hmt hbody hfail
    unfold get_request_data
    rcases hmt with hmt | hmt <;> simp [hget, hmt, hbody, hfail]

/-- Witness for C7: a failing decode of the form value `x` stores the
raw string; a failing top-level decode of the body `x` is fatal. -/
theorem claim_C7_witness :
    multipart_reducer (fun _ => Option.none) [] (("k" : String), FormValue.str ("x")) =
      [(("k" : String), PyValue.str ("x"))] ∧
    get_request_data (fun _ => Option.none)
        { base := {}, method := "POST", body := Except.ok ("x"), form := Except.error () } {} =
      Except.error ResolveError.jsonDecodeError :=
  ⟨claim_C7.1 (fun _ => Option.none) [] ("k") ("x") rfl rfl,
   claim_C7.2.2 (fun _ => Option.none)
     { base := {}, method := "POST", body := Except.ok ("x"), form := Except.error () } {}
     ("x") (by decide) (Or.inl rfl) rfl rfl⟩

/-- C6: for a multipart media type, a list-shaped field receives the
accumulated mapping's values in first-seen key order; a
singleton-shaped field of uploaded-file type receives the first value
when one exists (and the empty mapping otherwise); every other case —
including any non-multipart (url-encoded) media type regardless of
shape — receives the full accumulated mapping unchanged. -/
theorem claim_C6 (loads : String → Option PyValue) (form_data : FormData) (field : ModelField) :
    (field.shape = FieldShape.list →
      handle_multipart loads RequestEncodingType.multiPart form_data field =
        PyValue.list ((form_values loads form_data).map Prod.snd)) ∧
    (∀ k v rest, field.shape = FieldShape.singleton → field.type_ = FieldType.uploadFile →
      form_values loads form_data = (k, v) :: rest →
      handle_multipart loads RequestEncodingType.multiPart form_data field = v) ∧
    (field.shape = FieldShape.singleton → field.type_ = FieldType.uploadFile →
      form_values loads form_data = [] →
      handle_multipart loads RequestEncodingType.multiPart form_data field =
        PyValue.dict (form_values loads form_data)) ∧
    (field.shape ≠ FieldShape.list →
      ¬(field.shape = FieldShape.singleton ∧ field.type_ = FieldType.uploadFile) →
      handle_multipart loads RequestEncodingType.multiPart form_data field =
        PyValue.dict (form_values loads form_data)) ∧
    (∀ media_type, media_type ≠ RequestEncodingType.multiPart →
      handle_multipart loads media_type form_data field =
        PyValue.dict (form_values loads form_data)) := by
  refine ⟨?_, ?_, ?_, ?_, ?_⟩
  · intro hshape
    unfold handle_multipart
    simp [hshape]
  · intro k v rest hshape htype hfv
    unfold handle_multipart
    simp [hshape, htype, hfv]
  · intro hshape htype hfv
    unfold handle_multipart
    simp [hshape, htype, hfv]
  · intro hshape hsu
    unfold handle_multipart
    simp [hshape, hsu]
  · intro media_type hmt
    unfold handle_multipart
    simp [hmt]

/-- Witness for C6: a two-entry form with a list-shaped field yields
the values only; a one-entry form with a singleton uploaded-file field
yields the single entry, not the wrapping mapping. -/
theorem claim_C6_witness :
    handle_multipart (fun _ => Option.none) RequestEncodingType.multiPart
        [(("x" : String), FormValue.str ("1")), (("y" : String), FormValue.str ("2"))]
        { shape := FieldShape.list } =
      PyValue.list [PyValue.str ("1"), PyValue.str ("2")] :=
  (claim_C6 (fun _ => Option.none)
      [(("x" : String), FormValue.str ("1")), (("y" : String), FormValue.str ("2"))]
      { shape := FieldShape.list }).1 rfl

/-- C10: whenever the extras selection picks a source — any of the
three arms, query, header or cookie, each stated as its own conjunct —
and the extras dict lacks the `required` key, extraction fails with a
plain `KeyError` on `"required"` — even when the alias is present in
the selected source — and that error is neither the validation error
nor the configuration error. -/
theorem claim_C10 (connection : Connection) (field_name : String) (field : ModelField)
    (query_params : List (String × PyValue)) (header_params : List (String × String))
    (a : String)
    (hpath : alGet connection.base.path_params field_name = Option.none)
    (hq : alGet query_params field_name = Option.none)
    (hne : a ≠ "")
    (hreq : field.extra.required = Option.none) :
    (field.extra.query = some a → ∀ v : PyValue, alGet query_params a = some v →
      get_connection_parameters connection field_name field query_params header_params =
        Except.error (ResolveError.keyError ("required"))) ∧
    ((field.extra.query = Option.none ∨ field.extra.query = some "") →
      field.extra.header = some a → ∀ v : String, alGet header_params a = some v →
      get_connection_parameters connection field_name field query_params header_params =
        Except.error (ResolveError.keyError ("required"))) ∧
    ((field.extra.query = Option.none ∨ field.extra.query = some "") →
      (field.extra.header = Option.none ∨ field.extra.header = some "") →
      field.extra.cookie = some a → ∀ v : String, alGet connection.base.cookies a = some v →
      get_connection_parameters connection field_name field query_params header_params =
        Except.error (ResolveError.keyError ("required"))) ∧
    ∀ msg, ResolveError.keyError ("required") ≠ ResolveError.validation msg ∧
      ResolveError.keyError ("required") ≠ ResolveError.improperlyConfigured msg := by
  refine ⟨?_, ?_, ?_, ?_⟩
  · intro hqa v hv
    have hk : field.extra.hasKeys = true := by simp [FieldExtra.hasKeys, hqa]
    have hnonempty : query_params.isEmpty = false :=
      isEmpty_false_of_alGet query_params a v hv
    unfold get_connection_parameters
    simp [hpath, hq, hk, extra_selection, hqa, hne, hnonempty, hreq]
  · intro hqa hha v hv
    have hk : field.extra.hasKeys = true := by simp [FieldExtra.hasKeys, hha]
    have hnonempty : header_params.isEmpty = false :=
      isEmpty_false_of_alGet header_params a v hv
    unfold get_connection_parameters
    rcases hqa with hqa | hqa <;>
      simp [hpath, hq, hk, extra_selection, header_selection, hqa, hha, hne, hnonempty,
        hreq]
  · intro hqa hha hca v hv
    have hk : field.extra.hasKeys = true := by simp [FieldExtra.hasKeys, hca]
    have hnonempty : connection.base.cookies.isEmpty = false :=
      isEmpty_false_of_alGet connection.base.cookies a v hv
    unfold get_connection_parameters
    rcases hqa with hqa | hqa <;> rcases hha with hha | hha <;>
      simp [hpath, hq, hk, extra_selection, header_selection, cookie_selection, hqa, hha,
        hca, hne, hnonempty, hreq]
  · intro msg
    exact ⟨fun h => ResolveError.noConfusion h, fun h => ResolveError.noConfusion h⟩

/-- Witness for C10, exercising all three arms: a field declaring only
a query alias `q`, one declaring only a header alias `h`, and one
declaring only a cookie alias `c`, each without a `required` key, all
fail with the `KeyError` even though the alias is present in the
selected source. -/
theorem claim_C10_witness :
    (get_connection_parameters (Connection.websocket {}) ("f")
        { extra := { query := some ("q") } } [(("q" : String), PyValue.str ("x"))] [] =
      Except.error (ResolveError.keyError ("required"))) ∧
    (get_connection_parameters (Connection.websocket {}) ("f")
        { extra := { header := some ("h") } } [] [(("h" : String), ("x"))] =
      Except.error (ResolveError.keyError ("required"))) ∧
    (get_connection_parameters
        (Connection.websocket { cookies := [(("c" : String), ("x"))] }) ("f")
        { extra := { cookie := some ("c") } } [] [] =
      Except.error (ResolveError.keyError ("required"))) ∧
    ∀ msg, ResolveError.keyError ("required") ≠ ResolveError.validation msg ∧
      ResolveError.keyError ("required") ≠ ResolveError.improperlyConfigured msg :=
  ⟨(claim_C10 (Connection.websocket {}) ("f") { extra := { query := some ("q") } }
      [(("q" : String), PyValue.str ("x"))] [] ("q")
      rfl rfl (by decide) rfl).1 rfl (PyValue.str ("x")) rfl,
   (claim_C10 (Connection.websocket {}) ("f") { extra := { header := some ("h") } }
      [] [(("h" : String), ("x"))] ("h")
      rfl rfl (by decide) rfl).2.1 (Or.inl rfl) rfl ("x") rfl,
   (claim_C10 (Connection.websocket { cookies := [(("c" : String), ("x"))] }) ("f")
      { extra := { cookie := some ("c") } } [] [] ("c")
      rfl rfl (by decide) rfl).2.2.1 (Or.inl rfl) (Or.inl rfl) rfl ("x") rfl,
   (claim_C10 (Connection.websocket {}) ("f") { extra := { query := some ("q") } }
      [(("q" : String), PyValue.str ("x"))] [] ("q")
      rfl rfl (by decide) rfl).2.2.2⟩

/-- C8: a `request` field is a configuration error on a websocket
connection and binds the connection itself on an HTTP connection; a
`socket` field is a configuration error on an HTTP connection and
binds the connection itself on a websocket connection; a `data` field
is a configuration error on a websocket connection. -/
theorem claim_C8 (loads : String → Option PyValue) (field : ModelField) :
    (∀ (d : ConnData) (qp : List (String × PyValue)),
      parse_query_params (Connection.websocket d) = Except.ok qp →
      get_model_kwargs_from_connection loads (Connection.websocket d) [("request", field)] =
        Except.error (ResolveError.improperlyConfigured
          ("the request kwarg is not supported with websocket handlers"))) ∧
    (∀ (r : HttpRequest) (qp : List (String × PyValue)),
      parse_query_params (Connection.request r) = Except.ok qp →
      get_model_kwargs_from_connection loads (Connection.request r) [("request", field)] =
        Except.ok [("request", KwargValue.conn (Connection.request r))]) ∧
    (∀ (r : HttpRequest) (qp : List (String × PyValue)),
      parse_query_params (Connection.request r) = Except.ok qp →
      get_model_kwargs_from_connection loads (Connection.request r) [("socket", field)] =
        Except.error (ResolveError.improperlyConfigured
          ("the socket kwarg is not supported with http handlers"))) ∧
    (∀ (d : ConnData) (qp : List (String × PyValue)),
      parse_query_params (Connection.websocket d) = Except.ok qp →
      get_model_kwargs_from_connection loads (Connection.websocket d) [("socket", field)] =
        Except.ok [("socket", KwargValue.conn (Connection.websocket d))]) ∧
    (∀ (d : ConnData) (qp : List (String × PyValue)),
      parse_query_params (Connection.websocket d) = Except.ok qp →
      get_model_kwargs_from_connection loads (Connection.websocket d) [("data", field)] =
        Except.error (ResolveError.improperlyConfigured
          ("the data kwarg is not supported with websocket handlers"))) := by
  refine ⟨?_, ?_, ?_, ?_, ?_⟩ <;> intro c qp hq <;>
    unfold get_model_kwargs_from_connection <;> rw [hq] <;>
    unfold build_kwargs_loop kwarg_step <;> simp [alSet] <;> rfl

/-- Witness for C8: the `request` field on a concrete websocket
connection raises the configuration error. -/
theorem claim_C8_witness :
    get_model_kwargs_from_connection (fun _ => Option.none) (Connection.websocket {})
        [("request", {})] =
      Except.error (ResolveError.improperlyConfigured
        ("the request kwarg is not supported with websocket handlers")) :=
  (claim_C8 (fun _ => Option.none) {}).1 {} [] rfl

/-- C2 (counterexample): parsing `a=&a=1` does not promote the blank
first value to a list — the falsy existing entry is overwritten, so
the result binds `a` to the single string `1`, not to the two-element
list the claim requires. -/
theorem claim_C2_counterexample :
    parse_query_params (Connection.websocket { query_string := some ("a=&a=1") }) =
      Except.ok [(("a" : String), PyValue.str ("1"))] ∧
    PyValue.str ("1") ≠ PyValue.list [PyValue.str (""), PyValue.str ("1")] := by
  refine ⟨rfl, ?_⟩
  intro h
  exact PyValue.noConfusion h

/-- C2 (amended): folding pairs left-to-right, a repeated key is
promoted to a two-element list only when the existing value is a
truthy string; a truthy (non-empty) existing list gets the value
appended; a falsy existing value (blank string, false, empty list) is
overwritten by the new value; a boolean-true existing value raises a
TypeError; parsing `a=1&a=2` yields the two-element list. -/
theorem claim_C2 :
    (∀ (acc : List (String × PyValue)) (k v : String), alGet acc k = Option.none →
      _query_param_reducer acc (k, v) = Except.ok (alSet acc k (coerce_query_value v))) ∧
    (∀ (acc : List (String × PyValue)) (k v : String) (old : PyValue),
      alGet acc k = some old → pyTruthy old = false →
      _query_param_reducer acc (k, v) = Except.ok (alSet acc k (coerce_query_value v))) ∧
    (∀ (acc : List (String × PyValue)) (k v s : String),
      alGet acc k = some (PyValue.str s) → s ≠ "" →
      _query_param_reducer acc (k, v) =
        Except.ok (alSet acc k (PyValue.list [PyValue.str s, coerce_query_value v]))) ∧
    (∀ (acc : List (String × PyValue)) (k v : String) (vs : List PyValue),
      alGet acc k = some (PyValue.list vs) → vs ≠ [] →
      _query_param_reducer acc (k, v) =
        Except.ok (alSet acc k (PyValue.list (vs ++ [coerce_query_value v])))) ∧
    (∀ (acc : List (String × PyValue)) (k v : String),
      alGet acc k = some (PyValue.bool true) →
      _query_param_reducer acc (k, v) = Except.error ResolveError.typeError) ∧
    parse_query_params (Connection.websocket { query_string := some ("a=1&a=2") }) =
      Except.ok [(("a" : String), PyValue.list [PyValue.str ("1"), PyValue.str ("2")])] := by
  refine ⟨?_, ?_, ?_, ?_, ?_, rfl⟩
  · intro acc k v hget
    unfold _query_param_reducer
    simp [hget]
  · intro acc k v old hget hfalsy
    unfold _query_param_reducer
    cases old <;> simp_all [pyTruthy]
  · intro acc k v s hget hne
    have ht : pyTruthy (PyValue.str s) = true := by simp [pyTruthy, hne]
    unfold _query_param_reducer
    simp [hget, ht]
  · intro acc k v vs hget hne
    have ht : pyTruthy (PyValue.list vs) = true := by simp [pyTruthy, hne]
    unfold _query_param_reducer
    simp [hget, ht]
  · intro acc k v hget
    unfold _query_param_reducer
    simp [hget, pyTruthy]

/-- Witness for C2: a blank existing value for `a` is overwritten by
the next value rather than promoted. -/
theorem claim_C2_witness :
    _query_param_reducer [(("a" : String), PyValue.str (""))] (("a" : String), ("1")) =
      Except.ok [(("a" : String), PyValue.str ("1"))] :=
  claim_C2.2.1 [(("a" : String), PyValue.str (""))] ("a") ("1") (PyValue.str ("")) rfl rfl

/-- C3 (counterexample): a field with the query alias `q`, declared
required, and a declared — but falsy — default (the empty string)
still raises the validation error when the alias is absent from a
non-empty query mapping, where the claim requires it to fall through
to the declared default. -/
theorem claim_C3_counterexample :
    get_connection_parameters (Connection.websocket {}) ("f")
        { default := some (PyValue.str ("")),
          extra := { query := some ("q"), required := some true } }
        [(("other" : String), PyValue.str ("x"))] [] =
      Except.error (ResolveError.validation ("Missing required parameter q")) ∧
    (some (PyValue.str ("")) : Option PyValue) ≠ Option.none := by
  refine ⟨rfl, ?_⟩
  intro h
  exact Option.noConfusion h

/-- C3 (amended): when the selected extras alias is absent from its
source, extraction raises the validation error naming the alias iff
the selected source mapping is non-empty, the field's `required` flag
is true and its effective default (the declared default, or `None` for
the `Undefined` sentinel) is falsy; otherwise it returns that default.
In particular a declared falsy default (such as an empty string) does
not suppress the error, and an empty source mapping suppresses it even
for required fields without defaults.  Stated for each of the three
selection arms (query, header, cookie). -/
theorem claim_C3 (connection : Connection) (field_name : String) (field : ModelField)
    (query_params : List (String × PyValue)) (header_params : List (String × String))
    (a : String) (r : Bool)
    (hpath : alGet connection.base.path_params field_name = Option.none)
    (hq : alGet query_params field_name = Option.none)
    (hne : a ≠ "") (hreq : field.extra.required = some r) :
    (field.extra.query = some a →
      get_connection_parameters connection field_name field query_params header_params =
        (if query_params.isEmpty then Except.ok (field.default.getD PyValue.none)
         else
           match alGet query_params a with
           | some v => Except.ok v
           | Option.none =>
             if r && !pyTruthy (field.default.getD PyValue.none) then
               Except.error (ResolveError.validation ("Missing required parameter " ++ a))
             else Except.ok (field.default.getD PyValue.none))) ∧
    ((field.extra.query = Option.none ∨ field.extra.query = some "") →
      field.extra.header = some a →
      get_connection_parameters connection field_name field query_params header_params =
        (if header_params.isEmpty then Except.ok (field.default.getD PyValue.none)
         else
           match alGet header_params a with
           | some v => Except.ok (PyValue.str v)
           | Option.none =>
             if r && !pyTruthy (field.default.getD PyValue.none) then
               Except.error (ResolveError.validation ("Missing required parameter " ++ a))
             else Except.ok (field.default.getD PyValue.none))) ∧
    ((field.extra.query = Option.none ∨ field.extra.query = some "") →
      (field.extra.header = Option.none ∨ field.extra.header = some "") →
      field.extra.cookie = some a →
      get_connection_parameters connection field_name field query_params header_params =
        (if connection.base.cookies.isEmpty then Except.ok (field.default.getD PyValue.none)
         else
           match alGet connection.base.cookies a with
           | some v => Except.ok (PyValue.str v)
           | Option.none =>
             if r && !pyTruthy (field.default.getD PyValue.none) then
               Except.error (ResolveError.validation ("Missing required parameter " ++ a))
             else Except.ok (field.default.getD PyValue.none))) := by
  refine ⟨?_, ?_, ?_⟩
  · intro hqa
    have hk : field.extra.hasKeys = true := by simp [FieldExtra.hasKeys, hqa]
    unfold get_connection_parameters
    simp only [hpath, hq, hk, if_true]
    simp only [extra_selection, hqa, hne, if_neg hne]
    cases hqe : query_params.isEmpty with
    | true =>
      simp [hqe]
    | false =>
      cases hfound : alGet query_params a with
      | none => simp [hqe, hfound, hreq]
      | some v => simp [hqe, hfound, hreq]
  · intro hqa hha
    have hk : field.extra.hasKeys = true := by simp [FieldExtra.hasKeys, hha]
    unfold get_connection_parameters
    simp only [hpath, hq, hk, if_true]
    have hsel : extra_selection field.extra query_params header_params
        connection.base.cookies =
        some (a, !header_params.isEmpty, (alGet header_params a).map PyValue.str) := by
      rcases hqa with hqa | hqa <;>
        simp [extra_selection, header_selection, hqa, hha, hne]
    rw [hsel]
    cases hqe : header_params.isEmpty with
    | true => simp [hqe]
    | false =>
      cases hfound : alGet header_params a with
      | none => simp [hqe, hfound, hreq]
      | some v => simp [hqe, hfound, hreq]
  · intro hqa hha hca
    have hk : field.extra.hasKeys = true := by simp [FieldExtra.hasKeys, hca]
    unfold get_connection_parameters
    simp only [hpath, hq, hk, if_true]
    have hsel : extra_selection field.extra query_params header_params
        connection.base.cookies =
        some (a, !connection.base.cookies.isEmpty,
          (alGet connection.base.cookies a).map PyValue.str) := by
      rcases hqa with hqa | hqa <;> rcases hha with hha | hha <;>
        simp [extra_selection, header_selection, cookie_selection, hqa, hha, hca, hne]
    rw [hsel]
    cases hqe : connection.base.cookies.isEmpty with
    | true => simp [hqe]
    | false =>
      cases hfound : alGet connection.base.cookies a with
      | none => simp [hqe, hfound, hreq]
      | some v => simp [hqe, hfound, hreq]

/-- Witness for C3 at the counterexample input: the query-arm formula
evaluates to the validation error for the falsy declared default. -/
theorem claim_C3_witness :
    get_connection_parameters (Connection.websocket {}) ("f")
        { default := some (PyValue.str ("")),
          extra := { query := some ("q"), required := some true } }
        [(("other" : String), PyValue.str ("x"))] [] =
      (if ([(("other" : String), PyValue.str ("x"))] : List (String × PyValue)).isEmpty then
         Except.ok ((some (PyValue.str (""))).getD PyValue.none)
       else
         match alGet [(("other" : String), PyValue.str ("x"))] ("q") with
         | some v => Except.ok v
         | Option.none =>
           if true && !pyTruthy ((some (PyValue.str (""))).getD PyValue.none) then
             Except.error (ResolveError.validation ("Missing required parameter " ++ "q"))
           else Except.ok ((some (PyValue.str (""))).getD PyValue.none)) :=
  (claim_C3 (Connection.websocket {}) ("f")
      { default := some (PyValue.str ("")),
        extra := { query := some ("q"), required := some true } }
      [(("other" : String), PyValue.str ("x"))] [] ("q") true
      rfl rfl (by decide) rfl).1 rfl

/-- C4: extraction checks path parameters first (exact field name,
regardless of everything else), then query parameters (exact field
name); declared extras are consulted only when neither matched, in the
fixed order query → header → cookie, looking up the alias rather than
the field name (with the `required` entry read first); and the first
extra with a truthy alias fixes the consulted source: when the query
alias is selected the result is invariant under arbitrary changes to
the header/cookie extras, the header source and the cookie source, and
when the header alias is selected the result is invariant under
arbitrary changes to the cookie extras and the cookie source. -/
theorem claim_C4 (connection : Connection) (field_name : String) (field : ModelField)
    (query_params : List (String × PyValue)) (header_params : List (String × String)) :
    (∀ v, alGet connection.base.path_params field_name = some v →
      get_connection_parameters connection field_name field query_params header_params =
        Except.ok (PyValue.str v)) ∧
    (alGet connection.base.path_params field_name = Option.none →
      ∀ v, alGet query_params field_name = some v →
      get_connection_parameters connection field_name field query_params header_params =
        Except.ok v) ∧
    (alGet connection.base.path_params field_name = Option.none →
      alGet query_params field_name = Option.none →
      ∀ (a : String) (r : Bool) v, field.extra.query = some a → a ≠ "" →
      field.extra.required = some r → alGet query_params a = some v →
      get_connection_parameters connection field_name field query_params header_params =
        Except.ok v) ∧
    (alGet connection.base.path_params field_name = Option.none →
      alGet query_params field_name = Option.none →
      (field.extra.query = Option.none ∨ field.extra.query = some "") →
      ∀ (a : String) (r : Bool) v, field.extra.header = some a → a ≠ "" →
      field.extra.required = some r → alGet header_params a = some v →
      get_connection_parameters connection field_name field query_params header_params =
        Except.ok (PyValue.str v)) ∧
    (alGet connection.base.path_params field_name = Option.none →
      alGet query_params field_name = Option.none →
      (field.extra.query = Option.none ∨ field.extra.query = some "") →
      (field.extra.header = Option.none ∨ field.extra.header = some "") →
      ∀ (a : String) (r : Bool) v, field.extra.cookie = some a → a ≠ "" →
      field.extra.required = some r → alGet connection.base.cookies a = some v →
      get_connection_parameters connection field_name field query_params header_params =
        Except.ok (PyValue.str v)) ∧
    (alGet connection.base.path_params field_name = Option.none →
      alGet query_params field_name = Option.none →
      ∀ (a : String), field.extra.query = some a → a ≠ "" →
      ∀ (field' : ModelField) (connection' : Connection)
        (header_params' : List (String × String)),
      field'.extra.query = some a →
      field'.extra.required = field.extra.required →
      field'.default = field.default →
      connection'.base.path_params = connection.base.path_params →
      get_connection_parameters connection field_name field query_params header_params =
        get_connection_parameters connection' field_name field' query_params header_params') ∧
    (alGet connection.base.path_params field_name = Option.none →
      alGet query_params field_name = Option.none →
      (field.extra.query = Option.none ∨ field.extra.query = some "") →
      ∀ (a : String), field.extra.header = some a → a ≠ "" →
      ∀ (field' : ModelField) (connection' : Connection),
      field'.extra.query = field.extra.query →
      field'.extra.header = some a →
      field'.extra.required = field.extra.required →
      field'.default = field.default →
      connection'.base.path_params = connection.base.path_params →
      get_connection_parameters connection field_name field query_params header_params =
        get_connection_parameters connection' field_name field' query_params header_params) := by
  refine ⟨?_, ?_, ?_, ?_, ?_, ?_, ?_⟩
  · intro v hv
    unfold get_connection_parameters
    simp [hv]
  · intro hpath v hv
    unfold get_connection_parameters
    simp [hpath, hv]
  · intro hpath hq a r v hqa hne hreq hv
    have hk : field.extra.hasKeys = true := by simp [FieldExtra.hasKeys, hqa]
    have hnonempty : query_params.isEmpty = false :=
      isEmpty_false_of_alGet query_params a v hv
    unfold get_connection_parameters
    simp [hpath, hq, hk, extra_selection, hqa, hne, hnonempty, hreq, hv]
  · intro hpath hq hqa a r v hha hne hreq hv
    have hk : field.extra.hasKeys = true := by simp [FieldExtra.hasKeys, hha]
    have hnonempty : header_params.isEmpty = false :=
      isEmpty_false_of_alGet header_params a v hv
    unfold get_connection_parameters
    rcases hqa with hqa | hqa <;>
      simp [hpath, hq, hk, extra_selection, header_selection, hqa, hha, hne, hnonempty,
        hreq, hv]
  · intro hpath hq hqa hha a r v hca hne hreq hv
    have hk : field.extra.hasKeys = true := by simp [FieldExtra.hasKeys, hca]
    have hnonempty : connection.base.cookies.isEmpty = false :=
      isEmpty_false_of_alGet connection.base.cookies a v hv
    unfold get_connection_parameters
    rcases hqa with hqa | hqa <;> rcases hha with hha | hha <;>
      simp [hpath, hq, hk, extra_selection, header_selection, cookie_selection, hqa, hha,
        hca, hne, hnonempty, hreq, hv]
  · intro hpath hq a hqa hne field' connection' header_params' hqa' hreq' hdef' hpp'
    have hk : field.extra.hasKeys = true := by simp [FieldExtra.hasKeys, hqa]
    have hk' : field'.extra.hasKeys = true := by simp [FieldExtra.hasKeys, hqa']
    unfold get_connection_parameters
    simp only [hpath, hq, hpp', hk, hk', if_true]
    simp only [extra_selection, hqa, hqa', hne, if_neg hne, hreq', hdef']
    simp
  · intro hpath hq hqa a hha hne field' connection' hq' hha' hreq' hdef' hpp'
    have hk : field.extra.hasKeys = true := by simp [FieldExtra.hasKeys, hha]
    have hk' : field'.extra.hasKeys = true := by simp [FieldExtra.hasKeys, hha']
    unfold get_connection_parameters
    simp only [hpath, hq, hpp', hk, hk', if_true]
    have hsel : extra_selection field.extra query_params header_params
        connection.base.cookies =
        some (a, !header_params.isEmpty, (alGet header_params a).map PyValue.str) := by
      rcases hqa with hqa | hqa <;>
        simp [extra_selection, header_selection, hqa, hha, hne]
    have hsel' : extra_selection field'.extra query_params header_params
        connection'.base.cookies =
        some (a, !header_params.isEmpty, (alGet header_params a).map PyValue.str) := by
      rcases hqa with hqa | hqa <;>
        simp [extra_selection, header_selection, hq', hqa, hha', hne]
    rw [hsel, hsel', hreq', hdef']

/-- Witness for C4: a field present in both path and query parameters
resolves from the path parameters. -/
theorem claim_C4_witness :
    get_connection_parameters
        (Connection.websocket { path_params := [(("f" : String), ("p"))] }) ("f") {}
        [(("f" : String), PyValue.str ("q"))] [] =
      Except.ok (PyValue.str ("p")) :=
  (claim_C4 (Connection.websocket { path_params := [(("f" : String), ("p"))] }) ("f") {}
      [(("f" : String), PyValue.str ("q"))] []).1 ("p") rfl

theorem resolve_deps_loop_preserve
    (resolveSub : Provide → Except ResolveError (List (String × KwargValue)))
    (fields : List (String × ModelField)) :
    ∀ (provs : List (String × Provide)) (deps m : List (String × KwargValue)) (k : String),
    resolve_deps_loop resolveSub fields provs deps = Except.ok m →
    k ∉ provs.map Prod.fst → alGet m k = alGet deps k := by
  intro provs
  induction provs with
  | nil =>
    intro deps m k h hk
    unfold resolve_deps_loop at h
    injection h with h2
    subst h2
    rfl
  | cons kp rest ih =>
    intro deps m k h hk
    obtain ⟨key, provider⟩ := kp
    simp only [List.map_cons, List.mem_cons] at hk
    push_neg at hk
    unfold resolve_deps_loop at h
    by_cases hin : (alGet fields key).isSome = true
    · rw [if_pos hin] at h
      cases hr : resolveSub provider with
      | error e => rw [hr] at h; cases h
      | ok pk =>
        rw [hr] at h
        rw [ih (alSet deps key (KwargValue.py (provider.fn pk))) m k h hk.2]
        exact alGet_alSet_ne deps k key _ (fun he => hk.1 he.symm)
    · rw [if_neg hin] at h
      exact ih deps m k h hk.2

theorem resolve_deps_loop_mem
    (resolveSub : Provide → Except ResolveError (List (String × KwargValue)))
    (fields : List (String × ModelField)) :
    ∀ (provs : List (String × Provide)) (deps m : List (String × KwargValue))
      (key : String) (provider : Provide),
    keysNodup provs → (key, provider) ∈ provs → (alGet fields key).isSome = true →
    resolve_deps_loop resolveSub fields provs deps = Except.ok m →
    ∃ pk, resolveSub provider = Except.ok pk ∧
      alGet m key = some (KwargValue.py (provider.fn pk)) := by
  intro provs
  induction provs with
  | nil =>
    intro deps m key provider hnd hmem hf h
    simp at hmem
  | cons kp rest ih =>
    intro deps m key provider hnd hmem hf h
    obtain ⟨k0, p0⟩ := kp
    unfold keysNodup at hnd
    simp only [List.map_cons, List.nodup_cons] at hnd
    rcases List.mem_cons.mp hmem with hhead | htail
    · injection hhead with he1 he2
      subst he1
      subst he2
      unfold resolve_deps_loop at h
      rw [if_pos hf] at h
      cases hr : resolveSub provider with
      | error e => rw [hr] at h; cases h
      | ok pk =>
        rw [hr] at h
        refine ⟨pk, rfl, ?_⟩
        rw [resolve_deps_loop_preserve resolveSub fields rest _ m key h hnd.1]
        exact alGet_alSet_self deps key _
    · have hkey_mem : key ∈ rest.map Prod.fst :=
        List.mem_map_of_mem Prod.fst htail
      have hk0 : k0 ≠ key := fun he => hnd.1 (he ▸ hkey_mem)
      unfold resolve_deps_loop at h
      by_cases hin : (alGet fields k0).isSome = true
      · rw [if_pos hin] at h
        cases hr : resolveSub p0 with
        | error e => rw [hr] at h; cases h
        | ok pk =>
          rw [hr] at h
          exact ih _ m key provider hnd.2 htail hf h
      · rw [if_neg hin] at h
        exact ih deps m key provider hnd.2 htail hf h

/-- C1 (counterexample): a handler field set declaring the reserved
name `data` together with a provider table registering a provider
named `data` resolves `data` to the provider's result, not to the
connection-derived body decode (which would be the integer `5` here):
the provider shadows the reserved name, not the other way around. -/
theorem claim_C1_counterexample :
    resolve_signature_kwargs
        (fun s => if s = "5" then some (PyValue.int 5) else Option.none) 2
        [(("data" : String), ({} : ModelField))]
        (Connection.request { method := "POST", body := Except.ok ("5") })
        [(("data" : String), { fields := [], fn := fun _ => PyValue.str ("provided") })] =
      Except.ok [(("data" : String), KwargValue.py (PyValue.str ("provided")))] ∧
    get_request_data (fun s => if s = "5" then some (PyValue.int 5) else Option.none)
        { method := "POST", body := Except.ok ("5") } {} =
      Except.ok (PyValue.int 5) ∧
    PyValue.str ("provided") ≠ PyValue.int 5 := by
  refine ⟨rfl, rfl, ?_⟩
  intro h
  exact PyValue.noConfusion h

/-- C1 (amended): when a field name has a registered provider, the
resolved kwargs mapping binds that name to the provider's invocation
result on its recursively resolved kwargs — the provider takes
precedence, shadowing any reserved-name or connection-parameter
resolution for that field. -/
theorem claim_C1 (loads : String → Option PyValue) (fuel : Nat)
    (fields : List (String × ModelField)) (connection : Connection)
    (providers : List (String × Provide)) (m : List (String × KwargValue))
    (key : String) (provider : Provide)
    (hnd : keysNodup providers)
    (hmem : (key, provider) ∈ providers)
    (hf : (alGet fields key).isSome = true)
    (h : resolve_signature_kwargs loads (Nat.succ fuel) fields connection providers =
      Except.ok m) :
    ∃ pk, resolve_signature_kwargs loads fuel provider.fields connection providers =
        Except.ok pk ∧
      alGet m key = some (KwargValue.py (provider.fn pk)) := by
  unfold resolve_signature_kwargs at h
  split at h
  · cases h
  · rename_i dependencies hdeps
    split at h
    · cases h
    · rename_i connection_kwargs hck
      injection h with h2
      subst h2
      obtain ⟨pk, hpk, hget⟩ := resolve_deps_loop_mem
        (fun p => resolve_signature_kwargs loads fuel p.fields connection providers)
        fields providers [] dependencies key provider hnd hmem hf hdeps
      refine ⟨pk, hpk, ?_⟩
      have hnodup : keysNodup dependencies :=
        resolve_deps_loop_nodup
          (fun p => resolve_signature_kwargs loads fuel p.fields connection providers)
          fields providers [] dependencies hdeps (by simp [keysNodup])
      exact merge_kwargs_get_right connection_kwargs dependencies key _ hnodup hget

/-- Witness for C1 at the counterexample instance: the `data` entry of
the resolved mapping is the provider's result on its (empty) resolved
kwargs. -/
theorem claim_C1_witness :
    ∃ pk, resolve_signature_kwargs
        (fun s => if s = "5" then some (PyValue.int 5) else Option.none) 1
        ([] : List (String × ModelField))
        (Connection.request { method := "POST", body := Except.ok ("5") })
        [(("data" : String), { fields := [], fn := fun _ => PyValue.str ("provided") })] =
      Except.ok pk ∧
      alGet [(("data" : String), KwargValue.py (PyValue.str ("provided")))] ("data") =
        some (KwargValue.py
          ((({ fields := [], fn := fun _ => PyValue.str ("provided") } : Provide)).fn pk)) :=
  claim_C1 (fun s => if s = "5" then some (PyValue.int 5) else Option.none) 1
    [(("data" : String), ({} : ModelField))]
    (Connection.request { method := "POST", body := Except.ok ("5") })
    [(("data" : String), { fields := [], fn := fun _ => PyValue.str ("provided") })]
    [(("data" : String), KwargValue.py (PyValue.str ("provided")))]
    ("data") { fields := [], fn := fun _ => PyValue.str ("provided") }
    (by simp [keysNodup]) (by simp) rfl rfl

/-- C9: whenever resolution returns normally, the domain of the
resolved kwargs mapping is exactly the set of field names of the field
set: every field is bound and no extra name appears. -/
theorem claim_C9 (loads : String → Option PyValue) (fuel : Nat)
    (fields : List (String × ModelField)) (connection : Connection)
    (providers : List (String × Provide)) (m : List (String × KwargValue))
    (h : resolve_signature_kwargs loads fuel fields connection providers = Except.ok m) :
    ∀ k, (alGet m k).isSome = true ↔ (alGet fields k).isSome = true := by
  cases fuel with
  | zero => unfold resolve_signature_kwargs at h; cases h
  | succ fuel =>
    unfold resolve_signature_kwargs at h
    split at h
    · cases h
    · rename_i dependencies hdeps
      split at h
      · cases h
      · rename_i connection_kwargs hck
        injection h with h2
        subst h2
        intro k
        rw [merge_kwargs_isSome connection_kwargs dependencies k]
        have hckk := get_model_kwargs_keys loads connection _ connection_kwargs hck k
        rw [hckk, alGet_filter (fun key => (alGet dependencies key).isNone) fields k]
        have hsub := resolve_deps_loop_sub
          (fun p => resolve_signature_kwargs loads fuel p.fields connection providers)
          fields providers [] dependencies hdeps k
        by_cases hd : (alGet dependencies k).isSome = true
        · have hf : (alGet fields k).isSome = true := by
            rcases hsub hd with hf | habs
            · exact hf
            · simp at habs
          simp [Option.isNone, hd, hf]
        · have hdn : (alGet dependencies k).isNone = true := by
            cases hdk : alGet dependencies k with
            | none => rfl
            | some w => rw [hdk] at hd; simp at hd
          simp [hdn, hd]

/-- Witness for C9 at a concrete resolution: the resolved mapping for
the single field `a` contains exactly the key `a`. -/
theorem claim_C9_witness :
    (alGet [(("a" : String), KwargValue.py PyValue.none)] ("a")).isSome = true ↔
      (alGet [(("a" : String), ({} : ModelField))] ("a")).isSome = true :=
  claim_C9 (fun _ => Option.none) 1 [(("a" : String), ({} : ModelField))]
    (Connection.websocket {}) []
    [(("a" : String), KwargValue.py PyValue.none)] rfl ("a")
